import Mathlib

/-!
Shallow embedding of the `yoastseo` repository excerpt:
* `src/packages/schema-blocks/src/instructions/blocks/Title.tsx` — the `Title`
  block instruction (validation of a title attribute, renderability flag,
  registration with the instruction registry);
* the unnamed source file containing the component-gallery `App` and the
  `SearchResults` presentational component.

JavaScript attribute values are modelled by an explicit sum type, object
property access by assoc-list lookup, a thrown `TypeError` by `Except.error`,
and DOM / accessibility side effects by explicit state passing (the document
environment, the list of spoken announcements).
-/

set_option autoImplicit false

/-- A JavaScript value that can sit in a block's attribute map.  Strings,
numbers, booleans and `null` suffice for the code under study; a missing
property reads as `none` (JavaScript `undefined`). -/
inductive JsValue where
  | str (s : String)
  | num (n : Int)
  | boolean (b : Bool)
  | null
  deriving DecidableEq, Repr

/-- JavaScript truthiness of a `JsValue`: the empty string, `0`, `false` and
`null` are falsy, everything else is truthy. -/
def JsValue.truthy : JsValue → Bool
  | .str s => s ≠ ""
  | .num n => n ≠ 0
  | .boolean b => b
  | .null => false

/-- The white-space characters stripped by JavaScript `String.prototype.trim`:
the ECMAScript WhiteSpace production (TAB, VT, FF, SP, NBSP, ZWNBSP and every
Unicode Space\_Separator code point — U+1680, U+2000..U+200A, U+202F, U+205F,
U+3000) together with the LineTerminator production (LF, CR, LS, PS). -/
def jsWhitespace (c : Char) : Bool :=
  c = ' ' || c = '\t' || c = '\n' || c = '\r' ||
  c = '\x0b' || c = '\x0c' || c = ' ' ||
  c = ' ' || (0x2000 ≤ c.toNat && c.toNat ≤ 0x200A) ||
  c = ' ' || c = ' ' || c = '　' ||
  c = ' ' || c = ' ' || c = '﻿'

/-- JavaScript `String.prototype.trim`: drop white space from both ends. -/
def jsTrim (s : String) : String :=
  ⟨((s.data.dropWhile jsWhitespace).reverse.dropWhile jsWhitespace).reverse⟩

/-- Modelled from the spec: the status enumeration of the validation result
protocol, from the repository's `core/validation` module which is not in the
excerpt — "one of \x7bValid, MissingRequiredAttribute, ...other
framework-defined kinds\x7d". Only the two named kinds occur in this code. -/
inductive BlockValidation where
  | Valid
  | MissingRequiredAttribute
  deriving DecidableEq, Repr

/-- Modelled from the spec: the presence (requirement-level) enumeration from
the repository's `core/validation` module which is not in the excerpt —
"\x7bRequired, Recommended, Optional\x7d". -/
inductive BlockPresence where
  | Required
  | Recommended
  | Optional
  deriving DecidableEq, Repr

/-- A block instance as supplied by the external editing framework: an id, a
type name and a named-attribute map (first binding wins on lookup). -/
structure BlockInstance where
  clientId : String
  name : String
  attributes : List (String × JsValue)
  deriving DecidableEq, Repr

/-- JavaScript property read `blockInstance.attributes[k]`; `none` models
`undefined` for a missing key. -/
def BlockInstance.getAttribute (b : BlockInstance) (k : String) : Option JsValue :=
  (b.attributes.find? (fun p => p.1 == k)).map (fun p => p.2)

/-- The validation result record (`BlockValidationResult`), carrying the
validated block's id and type name, the status, the presence level and an
optional human-readable message. -/
structure BlockValidationResult where
  clientId : String
  name : String
  result : BlockValidation
  blockPresence : Option BlockPresence
  message : Option String
  deriving DecidableEq, Repr

/-- Modelled from the spec: the `BlockValidationResult.Valid` factory from the
repository's `core/validation` module which is not in the excerpt — it tags the
given block instance as valid, and "a Valid result carries no message". -/
def BlockValidationResult.ValidResult (b : BlockInstance) : BlockValidationResult :=
  { clientId := b.clientId
    name := b.name
    result := BlockValidation.Valid
    blockPresence := none
    message := none }

/-- WordPress i18n `__`: at the default (en) locale the translation is the
identity on the source string. -/
def wpTranslate (s : String) (_domain : String) : String := s

/-- Helper of `sprintf`: substitute the argument for the first `%s` of the
template's character list. -/
def sprintfAux : List Char → List Char → List Char
  | [], _ => []
  | '%' :: 's' :: rest, arg => arg ++ rest
  | c :: rest, arg => c :: sprintfAux rest arg

/-- WordPress i18n `sprintf` restricted to the single `%s` placeholder used by
this code: interpolate the argument into the template. -/
def sprintf (template arg : String) : String :=
  ⟨sprintfAux template.data arg.data⟩

/-- The configuration (`options`) fields of the `Title` instruction that its
`validate` method reads: `name`, the attribute key holding the title text, and
`fieldName`, the human-readable field label.  (The source class declares more
option fields — tags, placeholder, etc. — none of which `validate` touches.) -/
structure TitleOptions where
  name : String
  fieldName : String
  deriving DecidableEq, Repr

/-- A JavaScript runtime exception. -/
inductive JsError where
  | typeError (msg : String)
  deriving DecidableEq, Repr

/-- The `MissingRequiredAttribute` result the source constructs inline in the
fall-through branch of `Title.validate`. -/
def Title.missingResult (options : TitleOptions) (blockInstance : BlockInstance) :
    BlockValidationResult :=
  { clientId := blockInstance.clientId
    name := blockInstance.name
    result := BlockValidation.MissingRequiredAttribute
    blockPresence := some BlockPresence.Required
    message := some (sprintf (wpTranslate "%s has been left empty." "yoast-schema-blocks")
      options.fieldName) }

/-- `Title.validate`: read the configured attribute; when it is truthy and its
trim is truthy, return the Valid result; otherwise return the
`MissingRequiredAttribute` result.  The unconditional `.trim()` call throws a
`TypeError` when the attribute holds a truthy non-string value. -/
def Title.validate (options : TitleOptions) (blockInstance : BlockInstance) :
    Except JsError BlockValidationResult :=
  match blockInstance.getAttribute options.name with
  | some (JsValue.str s) =>
    if s ≠ "" ∧ jsTrim s ≠ "" then
      Except.ok (BlockValidationResult.ValidResult blockInstance)
    else
      Except.ok (Title.missingResult options blockInstance)
  | some v =>
    if v.truthy then
      Except.error (JsError.typeError "title.trim is not a function")
    else
      Except.ok (Title.missingResult options blockInstance)
  | none => Except.ok (Title.missingResult options blockInstance)

/-- `Title.renderable`: the instruction contributes no visual output. -/
def Title.renderable (_options : TitleOptions) : Bool :=
  false

/-- Modelled from the spec: `BlockInstruction.register` from the repository's
`core/blocks` module which is not in the excerpt — "a named-capability
registration" adding a key/instruction binding to the registry. -/
def BlockInstruction.register (key : String) (instruction : String)
    (registry : List (String × String)) : List (String × String) :=
  (key, instruction) :: registry

/-- The registrations performed when the `Title` module loads:
`BlockInstruction.register( "title", Title )` against an empty registry. -/
def registeredInstructions : List (String × String) :=
  BlockInstruction.register "title" "Title" []

/-! ## Component gallery (`App` in the unnamed source file) -/

/-- The demo widgets imported at the top of the gallery file; each catalog
entry's `component` field holds one rendered widget. -/
inductive Widget where
  | snippetEditor
  | wizard
  | loader
  | contentAnalysis
  | dashboardWidget
  | helpCenterWrapper
  | uiControlsWrapper
  | keywordExample
  | sidebarCollapsibleWrapper
  | keywordSuggestionsWrapper
  | buttonsWrapper
  | svgIconsWrapper
  | componentsExample
  deriving DecidableEq, Repr

/-- One entry of the gallery's static catalog. -/
structure ComponentEntry where
  id : String
  name : String
  component : Widget
  deriving DecidableEq, Repr

/-- The gallery's static ordered catalog (the `components` constant). -/
def components : List ComponentEntry :=
  [ ⟨"snippet-preview", "Snippet preview", Widget.snippetEditor⟩,
    ⟨"wizard", "Wizard", Widget.wizard⟩,
    ⟨"loader", "Loader", Widget.loader⟩,
    ⟨"content-analysis", "Content Analysis", Widget.contentAnalysis⟩,
    ⟨"dashboard-widget", "Dashboard Widget", Widget.dashboardWidget⟩,
    ⟨"help-center", "Help center", Widget.helpCenterWrapper⟩,
    ⟨"ui-controls", "UI Controls", Widget.uiControlsWrapper⟩,
    ⟨"keyword-example", "Keyword", Widget.keywordExample⟩,
    ⟨"sidebar-collapsible", "Collapsibles", Widget.sidebarCollapsibleWrapper⟩,
    ⟨"keyword-suggestions", "Keyword suggestions", Widget.keywordSuggestionsWrapper⟩,
    ⟨"buttons", "Buttons", Widget.buttonsWrapper⟩,
    ⟨"svg-icons", "SVG Icons", Widget.svgIconsWrapper⟩,
    ⟨"components-example", "Components", Widget.componentsExample⟩ ]

/-- The gallery's component state (`this.state`). -/
structure AppState where
  activeComponent : String
  isRtl : Bool
  deriving DecidableEq, Repr

/-- The state set by the `App` constructor. -/
def App.initialState : AppState :=
  { activeComponent := "snippet-preview", isRtl := false }

/-- `App.getContent`: scan the catalog in order and return the first entry
whose id equals the active component; falling off the loop returns JavaScript
`undefined`, modelled as `none`. -/
def App.getContent (s : AppState) : Option Widget :=
  (components.find? (fun c => s.activeComponent == c.id)).map
    (fun c => c.component)

/-- `App.navigate`: `setState` the active component id. -/
def App.navigate (s : AppState) (activeComponent : String) : AppState :=
  { s with activeComponent := activeComponent }

/-- The document environment seen by the gallery: the `dir` attribute of
`document.documentElement`, `none` while the attribute is absent. -/
structure DocumentEnv where
  dir : Option String
  deriving DecidableEq, Repr

/-- `document.documentElement.setAttribute( "dir", v )`. -/
def DocumentEnv.setDirAttribute (_d : DocumentEnv) (v : String) : DocumentEnv :=
  { dir := some v }

/-- `App.changeLanguageDirection`: `setState` the negated `isRtl` flag. -/
def App.changeLanguageDirection (s : AppState) : AppState :=
  { s with isRtl := !s.isRtl }

/-- `App.componentDidUpdate`: when the `isRtl` flag changed, write the matching
`dir` attribute ("rtl" or "ltr") on the document element. -/
def App.componentDidUpdate (prevState s : AppState) (d : DocumentEnv) : DocumentEnv :=
  if prevState.isRtl != s.isRtl then
    d.setDirAttribute (if s.isRtl then "rtl" else "ltr")
  else
    d

/-- One click of the "Change language direction" button: the state update
followed by the `componentDidUpdate` lifecycle reaction against the document. -/
def App.toggleDirection (sd : AppState × DocumentEnv) : AppState × DocumentEnv :=
  let s := App.changeLanguageDirection sd.1
  (s, App.componentDidUpdate sd.1 s sd.2)

/-! ## Search results list (`SearchResults` in the unnamed source file) -/

/-- A search hit record as returned by Algolia: an object id, a permalink and
a post title. -/
structure Post where
  objectID : String
  permalink : String
  post_title : String
  deriving DecidableEq, Repr

/-- The rendered content of one `SearchResult` row: the link target and the
title text. -/
structure SearchResultRow where
  permalink : String
  title : String
  deriving DecidableEq, Repr

/-- The render output of `SearchResults.render`: the no-results paragraph, the
zebra-striped list of rows, or nothing (`null`). -/
inductive SearchRendered where
  | noResultsFound (text : String)
  | resultsList (rows : List SearchResultRow)
  | nothing
  deriving DecidableEq, Repr

/-- The props of `SearchResults` relevant to rendering: the ordered result
records and the current search string. -/
structure SearchResultsProps where
  results : List Post
  searchString : String
  deriving DecidableEq, Repr

/-- The en-locale text of the `searchresults.noresultstext` message. -/
def noResultsText : String := "No results found."

/-- The en-locale rendering of the `searchresults.foundresultstext` ICU
message: "Found N result(s)" with an English plural on the count. -/
def foundResultsText (resultsCount : Nat) : String :=
  "Found " ++ toString resultsCount ++ " " ++
    (if resultsCount = 1 then "result" else "results")

/-- `SearchResults.resultsToSearchItem`: map each result record to a rendered
row carrying its permalink and title. -/
def SearchResults.resultsToSearchItem (results : List Post) : List SearchResultRow :=
  results.map (fun r => ⟨r.permalink, r.post_title⟩)

/-- `SearchResults.renderNoResultsFound`: speak the localized no-results text
and render it; the second component lists the accessibility announcements made
(`a11ySpeak` calls), in order. -/
def SearchResults.renderNoResultsFound : SearchRendered × List String :=
  (SearchRendered.noResultsFound noResultsText, [noResultsText])

/-- `SearchResults.handleZeroResults`: render the no-results message when a
search string was provided, otherwise `null` with no announcement. -/
def SearchResults.handleZeroResults (p : SearchResultsProps) : SearchRendered × List String :=
  if p.searchString ≠ "" then
    SearchResults.renderNoResultsFound
  else
    (SearchRendered.nothing, [])

/-- `SearchResults.render`: with zero results defer to `handleZeroResults`;
otherwise speak the found-results text and render the mapped rows.  The second
component lists the accessibility announcements of the render pass. -/
def SearchResults.render (p : SearchResultsProps) : SearchRendered × List String :=
  if p.results.length ≤ 0 then
    SearchResults.handleZeroResults p
  else
    (SearchRendered.resultsList (SearchResults.resultsToSearchItem p.results),
      [foundResultsText p.results.length])

/-! ## Helper lemmas -/

/-- A list with a member refuting `p` still has one after `dropWhile p`. -/
theorem exists_mem_dropWhile {p : Char → Bool} :
    ∀ {l : List Char}, (∃ c ∈ l, p c = false) →
      ∃ c ∈ l.dropWhile p, p c = false := by
  intro l
  induction l with
  | nil => intro h; simp at h
  | cons a t ih =>
    intro h
    obtain ⟨c, hc, hcp⟩ := h
    by_cases hp : p a
    · rw [List.dropWhile_cons, if_pos hp]
      apply ih
      rcases List.mem_cons.mp hc with rfl | hct
      · rw [hp] at hcp; cases hcp
      · exact ⟨c, hct, hcp⟩
    · rw [List.dropWhile_cons, if_neg hp]
      exact ⟨c, hc, hcp⟩

/-- A string with a non-whitespace character does not trim to empty. -/
theorem jsTrim_ne_empty {s : String}
    (h : ∃ c ∈ s.data, jsWhitespace c = false) : jsTrim s ≠ "" := by
  intro he
  have hd : ((s.data.dropWhile jsWhitespace).reverse.dropWhile jsWhitespace).reverse
      = [] := congrArg String.data he
  rw [List.reverse_eq_nil_iff, List.dropWhile_eq_nil_iff] at hd
  obtain ⟨c, hc1, hc2⟩ := exists_mem_dropWhile h
  have := hd c (List.mem_reverse.mpr hc1)
  rw [hc2] at this
  cases this

/-- A whitespace-only string trims to empty. -/
theorem jsTrim_eq_empty {s : String}
    (h : ∀ c ∈ s.data, jsWhitespace c = true) : jsTrim s = "" := by
  have h1 : s.data.dropWhile jsWhitespace = [] :=
    List.dropWhile_eq_nil_iff.mpr h
  rw [jsTrim, h1]
  rfl

/-- Interpolating any field label into the fixed message template yields a
non-empty string. -/
theorem sprintf_left_empty_ne (f : String) :
    sprintf "%s has been left empty." f ≠ "" := by
  intro he
  have hd : sprintfAux ("%s has been left empty." : String).data f.data = [] :=
    congrArg String.data he
  rw [show ("%s has been left empty." : String).data
      = '%' :: 's' :: (" has been left empty." : String).data from rfl] at hd
  rw [show sprintfAux ('%' :: 's' :: (" has been left empty." : String).data) f.data
      = f.data ++ (" has been left empty." : String).data from rfl] at hd
  have h2 := (List.append_eq_nil.mp hd).2
  exact absurd h2 (by decide)

/-- Any `Except.ok` result of `Title.validate` is the Valid result or the
missing-required-attribute result for that block instance. -/
theorem validate_ok_cases (options : TitleOptions) (b : BlockInstance)
    (r : BlockValidationResult) (h : Title.validate options b = Except.ok r) :
    r = BlockValidationResult.ValidResult b ∨ r = Title.missingResult options b := by
  unfold Title.validate at h
  split at h
  · split at h
    · exact Or.inl (Except.ok.inj h).symm
    · exact Or.inr (Except.ok.inj h).symm
  · split at h
    · exact Except.noConfusion h
    · exact Or.inr (Except.ok.inj h).symm
  · exact Or.inr (Except.ok.inj h).symm

/-! ## Claims about the Title validator -/

/-- C1: for every block instance whose attribute map binds the configured key
(`options.name`) to a string containing at least one non-whitespace character,
`Title.validate` returns a result with status `Valid`. -/
theorem C1_validate_valid_of_nonblank (options : TitleOptions) (b : BlockInstance)
    (s : String) (hattr : b.getAttribute options.name = some (JsValue.str s))
    (hch : ∃ c ∈ s.data, jsWhitespace c = false) :
    Title.validate options b = Except.ok (BlockValidationResult.ValidResult b) ∧
    (BlockValidationResult.ValidResult b).result = BlockValidation.Valid := by
  have hs : s ≠ "" := by
    intro hse
    subst hse
    simp at hch
  have ht : jsTrim s ≠ "" := jsTrim_ne_empty hch
  refine ⟨?_, rfl⟩
  unfold Title.validate
  rw [hattr]
  simp [hs, ht]

/-- Witness for C1: the attribute `title` bound to `" Hello "` validates as
Valid. -/
theorem C1_witness :
    Title.validate ⟨"title", "Title"⟩
        ⟨"client-1", "yoast/title", [("title", JsValue.str " Hello ")]⟩ =
      Except.ok (BlockValidationResult.ValidResult
        ⟨"client-1", "yoast/title", [("title", JsValue.str " Hello ")]⟩) :=
  (C1_validate_valid_of_nonblank ⟨"title", "Title"⟩
    ⟨"client-1", "yoast/title", [("title", JsValue.str " Hello ")]⟩
    " Hello " (by decide) (by decide)).1

/-- C2: for every block instance whose attribute map has the configured key
missing, bound to the empty string, or bound to a whitespace-only string,
`Title.validate` returns status `MissingRequiredAttribute`, presence
`Required`, and the field label interpolated into the fixed template. -/
theorem C2_validate_missing (options : TitleOptions) (b : BlockInstance)
    (h : b.getAttribute options.name = none ∨
         b.getAttribute options.name = some (JsValue.str "") ∨
         ∃ s, b.getAttribute options.name = some (JsValue.str s) ∧
           ∀ c ∈ s.data, jsWhitespace c = true) :
    Title.validate options b = Except.ok (Title.missingResult options b) ∧
    (Title.missingResult options b).result = BlockValidation.MissingRequiredAttribute ∧
    (Title.missingResult options b).blockPresence = some BlockPresence.Required ∧
    (Title.missingResult options b).message =
      some (sprintf "%s has been left empty." options.fieldName) := by
  refine ⟨?_, rfl, rfl, rfl⟩
  rcases h with h | h | ⟨s, h, hws⟩
  · unfold Title.validate
    rw [h]
  · unfold Title.validate
    rw [h]
    simp
  · unfold Title.validate
    rw [h]
    have ht : jsTrim s = "" := jsTrim_eq_empty hws
    simp [ht]

/-- Witness for C2: attributes `title ↦ "  "` with field label `"Title"` yield
a `MissingRequiredAttribute`, `Required` result whose message is
`"Title has been left empty."`. -/
theorem C2_witness :
    Title.validate ⟨"title", "Title"⟩
        ⟨"client-1", "yoast/title", [("title", JsValue.str "  ")]⟩ =
      Except.ok ⟨"client-1", "yoast/title", BlockValidation.MissingRequiredAttribute,
        some BlockPresence.Required, some "Title has been left empty."⟩ := by
  have h := C2_validate_missing ⟨"title", "Title"⟩
    ⟨"client-1", "yoast/title", [("title", JsValue.str "  ")]⟩
    (Or.inr (Or.inr ⟨"  ", by decide, by decide⟩))
  rw [h.1]
  rfl

/-- C3: every `Except.ok` result of `Title.validate` satisfies the protocol
invariant: a `Valid` result carries no message, and a non-`Valid` result
carries a non-empty message and a presence level. -/
theorem C3_result_invariant (options : TitleOptions) (b : BlockInstance)
    (r : BlockValidationResult) (h : Title.validate options b = Except.ok r) :
    (r.result = BlockValidation.Valid → r.message = none) ∧
    (r.result ≠ BlockValidation.Valid →
      (∃ m, r.message = some m ∧ m ≠ "") ∧ ∃ pr, r.blockPresence = some pr) := by
  rcases validate_ok_cases options b r h with rfl | rfl
  · exact ⟨fun _ => rfl, fun hv => absurd rfl hv⟩
  · refine ⟨fun hv => ?_, fun _ => ⟨⟨_, rfl, sprintf_left_empty_ne _⟩, _, rfl⟩⟩
    exact absurd hv (by simp [Title.missingResult])

/-- Witness for C3: the invariant holds at the concrete missing-title result. -/
theorem C3_witness :
    Title.validate ⟨"title", "Title"⟩ ⟨"client-2", "yoast/title", []⟩ =
      Except.ok (Title.missingResult ⟨"title", "Title"⟩ ⟨"client-2", "yoast/title", []⟩) ∧
    (((Title.missingResult ⟨"title", "Title"⟩ ⟨"client-2", "yoast/title", []⟩).result
        = BlockValidation.Valid →
      (Title.missingResult ⟨"title", "Title"⟩ ⟨"client-2", "yoast/title", []⟩).message = none) ∧
    ((Title.missingResult ⟨"title", "Title"⟩ ⟨"client-2", "yoast/title", []⟩).result
        ≠ BlockValidation.Valid →
      (∃ m, (Title.missingResult ⟨"title", "Title"⟩
          ⟨"client-2", "yoast/title", []⟩).message = some m ∧ m ≠ "") ∧
      ∃ pr, (Title.missingResult ⟨"title", "Title"⟩
          ⟨"client-2", "yoast/title", []⟩).blockPresence = some pr)) :=
  ⟨rfl, C3_result_invariant ⟨"title", "Title"⟩ ⟨"client-2", "yoast/title", []⟩
    (Title.missingResult ⟨"title", "Title"⟩ ⟨"client-2", "yoast/title", []⟩) rfl⟩

/-- C4: `Title.validate` reads no attribute other than the configured key: two
instances with the same id and type name whose attribute maps agree on
`options.name` validate identically (the embedding is a pure function, so the
input map is never mutated). -/
theorem C4_noninterference (options : TitleOptions) (clientId name : String)
    (attrs1 attrs2 : List (String × JsValue))
    (h : BlockInstance.getAttribute ⟨clientId, name, attrs1⟩ options.name =
         BlockInstance.getAttribute ⟨clientId, name, attrs2⟩ options.name) :
    Title.validate options ⟨clientId, name, attrs1⟩ =
      Title.validate options ⟨clientId, name, attrs2⟩ := by
  unfold Title.validate
  rw [h]
  cases BlockInstance.getAttribute ⟨clientId, name, attrs2⟩ options.name with
  | none => rfl
  | some v =>
    cases v with
    | str s => split <;> rfl
    | num n => split <;> rfl
    | boolean bb => split <;> rfl
    | null => split <;> rfl

/-- Witness for C4: reordering and changing unrelated attributes does not
change the validation outcome. -/
theorem C4_witness :
    Title.validate ⟨"title", "Title"⟩
        ⟨"client-3", "yoast/title",
          [("title", JsValue.str "Hello"), ("extra", JsValue.num 7)]⟩ =
      Title.validate ⟨"title", "Title"⟩
        ⟨"client-3", "yoast/title",
          [("other", JsValue.boolean true), ("title", JsValue.str "Hello")]⟩ :=
  C4_noninterference ⟨"title", "Title"⟩ "client-3" "yoast/title"
    [("title", JsValue.str "Hello"), ("extra", JsValue.num 7)]
    [("other", JsValue.boolean true), ("title", JsValue.str "Hello")]
    (by decide)

/-! ## Claims about the gallery and the search results list -/

/-- C5: navigating to an id present in the catalog makes the subsequent
render's content that entry's widget; navigating to an absent id makes it
empty. -/
theorem C5_navigate_getContent (s : AppState) (id : String) :
    (∀ e ∈ components, e.id = id →
      App.getContent (App.navigate s id) = some e.component) ∧
    ((∀ e ∈ components, e.id ≠ id) →
      App.getContent (App.navigate s id) = none) := by
  constructor
  · intro e he heq
    subst heq
    fin_cases he <;> rfl
  · intro hno
    unfold App.getContent
    rw [Option.map_eq_none']
    rw [List.find?_eq_none]
    intro c hc
    simp only [App.navigate, beq_iff_eq]
    exact fun hh => hno c hc hh.symm

/-- Witness for C5: navigating to "wizard" shows the wizard widget, navigating
to an unknown id shows nothing. -/
theorem C5_witness :
    App.getContent (App.navigate App.initialState "wizard") = some Widget.wizard ∧
    App.getContent (App.navigate App.initialState "no-such-id") = none :=
  ⟨(C5_navigate_getContent App.initialState "wizard").1
      ⟨"wizard", "Wizard", Widget.wizard⟩ (by decide) rfl,
    (C5_navigate_getContent App.initialState "no-such-id").2 (by decide)⟩

/-- Counterexample to C6 as stated: starting with no `dir` attribute on the
document, toggling the direction twice leaves `dir = some "ltr"`, not the
original absent value — the double toggle is not the identity on the
document's dir attribute for every starting state. -/
theorem C6_counterexample :
    (App.toggleDirection (App.toggleDirection (App.initialState, ⟨none⟩))).2.dir ≠
      (⟨none⟩ : DocumentEnv).dir := by
  decide

/-- C6 (amended): toggling the direction twice restores the `isRtl` flag, and
leaves the document `dir` attribute at the value encoding the original flag —
so whenever the attribute already encoded the starting direction, it is
returned to its value before the first toggle. -/
theorem C6_toggle_toggle (s : AppState) (d : DocumentEnv)
    (h : d.dir = some (if s.isRtl then "rtl" else "ltr")) :
    (App.toggleDirection (App.toggleDirection (s, d))).1.isRtl = s.isRtl ∧
    (App.toggleDirection (App.toggleDirection (s, d))).2.dir = d.dir := by
  cases hb : s.isRtl <;>
    rw [hb] at h <;>
    simp [App.toggleDirection, App.changeLanguageDirection, App.componentDidUpdate,
      DocumentEnv.setDirAttribute, hb, h]

/-- Witness for C6 (amended): from the initial state with `dir = "ltr"` the
double toggle restores flag and attribute. -/
theorem C6_witness :
    (App.toggleDirection (App.toggleDirection (App.initialState, ⟨some "ltr"⟩))).1.isRtl
        = App.initialState.isRtl ∧
    (App.toggleDirection (App.toggleDirection (App.initialState, ⟨some "ltr"⟩))).2.dir
        = (⟨some "ltr"⟩ : DocumentEnv).dir :=
  C6_toggle_toggle App.initialState ⟨some "ltr"⟩ (by decide)

/-- C7: with an empty result list and a non-empty search string, one render
pass of `SearchResults` returns the localized no-results message and makes
exactly one accessibility announcement. -/
theorem C7_zero_results (p : SearchResultsProps)
    (h1 : p.results = []) (h2 : p.searchString ≠ "") :
    SearchResults.render p =
      (SearchRendered.noResultsFound "No results found.", ["No results found."]) ∧
    (SearchResults.render p).2.length = 1 := by
  have hr : SearchResults.render p
      = (SearchRendered.noResultsFound noResultsText, [noResultsText]) := by
    unfold SearchResults.render SearchResults.handleZeroResults
    rw [h1]
    simp [h2, SearchResults.renderNoResultsFound]
  exact ⟨hr, by rw [hr]; rfl⟩

/-- Witness for C7: the empty result list with search string "yoast". -/
theorem C7_witness :
    SearchResults.render ⟨[], "yoast"⟩ =
      (SearchRendered.noResultsFound "No results found.", ["No results found."]) ∧
    (SearchResults.render ⟨[], "yoast"⟩).2.length = 1 :=
  C7_zero_results ⟨[], "yoast"⟩ rfl (by decide)

/-- C8: the Title instruction is non-renderable for every configuration, and
the module registers it under exactly the key "title" in the instruction
registry. -/
theorem C8_renderable_registration :
    (∀ options, Title.renderable options = false) ∧
    registeredInstructions = [("title", "Title")] :=
  ⟨fun _ => rfl, rfl⟩

/-- C9: `Title.validate` returns a result whenever the configured attribute is
absent or holds a string, but a truthy non-string attribute value makes the
unconditional `.trim()` call throw: at a concrete instance binding the title
attribute to the number 5 the validator returns no result. -/
theorem C9_nonstring_throws :
    (∀ options b, (BlockInstance.getAttribute b options.name = none ∨
        ∃ s, BlockInstance.getAttribute b options.name = some (JsValue.str s)) →
      ∃ r, Title.validate options b = Except.ok r) ∧
    Title.validate ⟨"title", "Title"⟩
        ⟨"client-4", "yoast/title", [("title", JsValue.num 5)]⟩ =
      Except.error (JsError.typeError "title.trim is not a function") := by
  constructor
  · intro options b h
    rcases h with h | ⟨s, h⟩
    · refine ⟨Title.missingResult options b, ?_⟩
      unfold Title.validate
      rw [h]
    · by_cases hc : s ≠ "" ∧ jsTrim s ≠ ""
      · refine ⟨BlockValidationResult.ValidResult b, ?_⟩
        unfold Title.validate
        rw [h]
        show (if s ≠ "" ∧ jsTrim s ≠ "" then
            Except.ok (BlockValidationResult.ValidResult b)
          else Except.ok (Title.missingResult options b)) =
          Except.ok (BlockValidationResult.ValidResult b)
        rw [if_pos hc]
      · refine ⟨Title.missingResult options b, ?_⟩
        unfold Title.validate
        rw [h]
        show (if s ≠ "" ∧ jsTrim s ≠ "" then
            Except.ok (BlockValidationResult.ValidResult b)
          else Except.ok (Title.missingResult options b)) =
          Except.ok (Title.missingResult options b)
        rw [if_neg hc]
  · rfl

/-- Witness for C9: a missing attribute yields a result, while `title ↦ 5`
throws a TypeError. -/
theorem C9_witness :
    (∃ r, Title.validate ⟨"title", "Title"⟩ ⟨"client-5", "yoast/title", []⟩
        = Except.ok r) ∧
    Title.validate ⟨"title", "Title"⟩
        ⟨"client-4", "yoast/title", [("title", JsValue.num 5)]⟩ =
      Except.error (JsError.typeError "title.trim is not a function") :=
  ⟨C9_nonstring_throws.1 ⟨"title", "Title"⟩ ⟨"client-5", "yoast/title", []⟩
      (Or.inl rfl),
    C9_nonstring_throws.2⟩

/-- C10: a freshly constructed gallery starts at "snippet-preview" with
`isRtl = false`, so the initial render shows the snippet editor widget in
left-to-right direction. -/
theorem C10_initial_render :
    App.initialState.activeComponent = "snippet-preview" ∧
    App.initialState.isRtl = false ∧
    App.getContent App.initialState = some Widget.snippetEditor :=
  ⟨rfl, rfl, rfl⟩
